import Mathlib

/-!
Shallow embedding of `src/semantic_test/fashion_bot.py` (FashionAIBot).

The program is a linear pipeline: read a query, build an embedding via a
remote embedding service, run a nearest-neighbor query against a remote
vector index, and format the matches through a remote chat-completion
service, rendering the result in a web UI.

Remote services are modelled by an oracle record `Env`; every pipeline
function additionally returns the list of remote calls it issued, so that
statements of the form "no remote call is made" are expressible.  Python
dictionaries become association lists, Python `None` / falsy values become
`Option` / explicit checks mirroring the source truthiness tests, and
Python exceptions (`KeyError`, `IndexError`) become an `Except PyError`
result.
-/

namespace FashionBot

/-- The ASCII single-quote character as a string (byte 39). -/
def sq : String := String.singleton (Char.ofNat 39)

/-- A Python metadata dictionary: association list from string keys to the
string rendering of the stored values. -/
abbrev Metadata := List (String × String)

/-- Python `d[k]` lookup as an `Option`: `none` when the key is absent. -/
def dictGet (d : Metadata) (k : String) : Option String :=
  (d.find? (fun p => p.1 == k)).map (fun p => p.2)

/-- One match record returned by the vector index: a similarity score and a
metadata mapping. -/
structure Match where
  score : Rat
  metadata : Metadata
deriving DecidableEq

/-- The dictionary returned by `index.query`:  `matchList` models its
`"matches"` key — `none` when the key is absent from the dictionary,
`some l` when present with value `l`.  A falsy (`None` or empty) result
dictionary is modelled one level up as `Option SearchResults = none`. -/
structure SearchResults where
  matchList : Option (List Match)
deriving DecidableEq

/-- An embedding vector (the code never computes with its entries, it only
passes them through to the vector index). -/
abbrev Embedding := List Rat

/-- A remote service call issued by the pipeline, with the arguments the
source passes at each call site. -/
inductive RemoteCall where
  | embeddingCreate (input : String) (model : String)
  | pineconeQuery (vector : Embedding) (top_k : Nat) (include_metadata : Bool)
  | chatCompletionCreate (model : String) (messages : List (String × String))
deriving DecidableEq

/-- Python exceptions the embedded fragment can raise. -/
inductive PyError where
  | keyError (k : String)
  | indexError
deriving DecidableEq

/-- Oracle for the three remote services: what each remote endpoint would
answer.  `chatResponse` yields the contents of the completion choices. -/
structure Env where
  embedResponse : String → Embedding
  queryResponse : Embedding → Nat → Bool → Option SearchResults
  chatResponse : List (String × String) → List String

/-- Environment-sourced configuration (`os.getenv` results). -/
structure Config where
  OPENAI_API_KEY : Option String
  PINECONE_API_KEY : Option String
deriving DecidableEq

/-- Python truthiness of an optional string: `None` and `""` are falsy. -/
def pyTruthyStr : Option String → Bool
  | none => false
  | some s => !s.isEmpty

/-- Hardcoded Pinecone environment constant. -/
def PINECONE_ENV : String := "us-east-1-aws"

/-- Hardcoded Pinecone index name constant. -/
def PINECONE_INDEX_NAME : String := "fashionproducts"

/-- Hardcoded Pinecone index endpoint URL constant. -/
def PINECONE_INDEX_URL : String :=
  "https://fashionproducts-zn0fky7.svc.aped-4627-b74a.pinecone.io"

/-- The vector-index connection handle built by `pc.Index(...)`. -/
structure Handle where
  api_key : String
  environment : String
  index_name : String
  index_url : String
deriving DecidableEq

/-- A Streamlit UI event emitted by the app. -/
inductive UIEvent where
  | title (s : String)
  | write (s : String)
  | error (s : String)
  | warning (s : String)
  | subheader (s : String)
  | markdown (s : String) (allow_html : Bool)
deriving DecidableEq

/-- Embedding of `initialize_services`: checks the Pinecone credential
(`if not PINECONE_API_KEY`), emits a `st.error` and returns `None` when it
is missing or empty, otherwise builds the index handle from the hardcoded
constants.  Building the handle issues no remote call. -/
def init_services (cfg : Config) : Option Handle × List UIEvent :=
  if !(pyTruthyStr cfg.PINECONE_API_KEY) then
    (none, [.error "Pinecone API key is missing. Check environment variables."])
  else
    (some { api_key := cfg.PINECONE_API_KEY.getD "",
            environment := PINECONE_ENV,
            index_name := PINECONE_INDEX_NAME,
            index_url := PINECONE_INDEX_URL }, [])

/-- Embedding of `generate_query_embedding`: one `openai.Embedding.create`
call with the query and the fixed model, returning
`response["data"][0]["embedding"]`. -/
def generate_query_embedding (env : Env) (query : String) :
    Embedding × List RemoteCall :=
  (env.embedResponse query, [.embeddingCreate query "text-embedding-ada-002"])

/-- Embedding of `search_pinecone`: `if not index: return None`, otherwise
one `index.query(vector=..., top_k=..., include_metadata=True)` call whose
response is returned unchanged. -/
def search_pinecone (env : Env) (index : Option Handle)
    (query_embedding : Embedding) (top_k : Nat := 5) :
    Option SearchResults × List RemoteCall :=
  match index with
  | none => (none, [])
  | some _ =>
      (env.queryResponse query_embedding top_k true,
       [.pineconeQuery query_embedding top_k true])

/-- One entry of the `products` list comprehension. -/
structure Product where
  name : String
  category : String
  price : String
  description : String
  url : String
deriving DecidableEq

/-- Embedding of one element of the `products` list comprehension: the
required keys `name`, `category`, `price`, `url` raise `KeyError` when
absent (in the evaluation order of the dict literal), `description`
defaults to the empty string via `.get`. -/
def extractProduct (m : Match) : Except PyError Product :=
  match dictGet m.metadata "name" with
  | none => .error (.keyError "name")
  | some name =>
    match dictGet m.metadata "category" with
    | none => .error (.keyError "category")
    | some category =>
      match dictGet m.metadata "price" with
      | none => .error (.keyError "price")
      | some price =>
        let description := (dictGet m.metadata "description").getD ""
        match dictGet m.metadata "url" with
        | none => .error (.keyError "url")
        | some url =>
            .ok { name := name, category := category, price := price,
                  description := description, url := url }

/-- Embedding of the whole `products` list comprehension: the first
`KeyError` aborts the comprehension. -/
def extractProducts : List Match → Except PyError (List Product)
  | [] => .ok []
  | m :: ms =>
    match extractProduct m with
    | .error e => .error e
    | .ok p =>
      match extractProducts ms with
      | .error e => .error e
      | .ok ps => .ok (p :: ps)

/-- One line of `product_rows` (the per-product f-string). -/
def productRow (p : Product) : String :=
  "| " ++ p.name ++ " | " ++ p.category ++ " | " ++ p.price ++ " | " ++
    p.description ++ " | [Link](" ++ p.url ++ ") |"

/-- `product_rows = "\n".join(...)`. -/
def product_rows (ps : List Product) : String :=
  String.intercalate "\n" (ps.map productRow)

/-- The `stylist_prompt` f-string, byte for byte (including the trailing
space after the interpolated query and the indentation of the triple-quoted
literal). -/
def stylist_prompt (query : String) (rows : String) : String :=
  "\n    You are a personal stylist. The user is looking for fashion recommendations based on the following query: \"" ++ query
    ++ "\". \n    Based on the products retrieved from a database, craft a conversational response as a stylist, explaining why these products are great choices."
    ++ "\n    Here are the products presented in a tabular format:\n\n    | **Name**                        | **Category** | **Price ($)** | **Description**                            | **URL**                     |"
    ++ "\n    |----------------------------------|--------------|---------------|--------------------------------------------|-----------------------------|"
    ++ "\n    " ++ rows
    ++ "\n\n    After presenting the table, provide a friendly and stylish response. Be creative and make it engaging.\n    "

/-- The two-message list passed to `openai.ChatCompletion.create`. -/
def stylist_messages (prompt : String) : List (String × String) :=
  [("system", "You are a fashion stylist."), ("user", prompt)]

/-- The fixed apology string returned on the fallback path.  (The literal
in the source contains an ASCII single quote.) -/
def apology : String :=
  "Sorry, I couldn" ++ sq ++ "t find any relevant products."

/-- Embedding of `format_results_as_stylist_response`.  The guard
`if not search_results or "matches" not in search_results` returns the
apology; otherwise the products are extracted (propagating `KeyError`),
the prompt is built and one chat-completion call is issued, whose first
choice is returned verbatim (`response["choices"][0]` raises `IndexError`
on an empty choice list). -/
def format_results_as_stylist_response (env : Env)
    (search_results : Option SearchResults) (query : String) :
    Except PyError String × List RemoteCall :=
  match search_results with
  | none => (.ok apology, [])
  | some sr =>
    match sr.matchList with
    | none => (.ok apology, [])
    | some ms =>
      match extractProducts ms with
      | .error e => (.error e, [])
      | .ok ps =>
        let msgs := stylist_messages (stylist_prompt query (product_rows ps))
        match env.chatResponse msgs with
        | [] => (.error .indexError, [.chatCompletionCreate "gpt-4" msgs])
        | c :: _ => (.ok c, [.chatCompletionCreate "gpt-4" msgs])

/-- The guard of `main`:
`if not search_results or not search_results.get("matches")` — truthiness
of the optional result, of the optional `matches` value, and of the list
itself (an empty list is falsy). -/
def noMatches : Option SearchResults → Bool
  | none => true
  | some sr =>
    match sr.matchList with
    | none => true
    | some ms => ms.isEmpty

/-- Everything the `main` click handler produces: UI events, remote calls,
the arguments `format_results_as_stylist_response` was invoked with, the
number of `initialize_services` invocations, and whether an exception
escaped. -/
structure MainResult where
  ui : List UIEvent
  calls : List RemoteCall
  formatArgs : List (Option SearchResults)
  initCount : Nat
  outcome : Except PyError Unit

/-- The two UI events `main` always emits before reading the form. -/
def mainHeaderUI : List UIEvent :=
  [.title "Fashion AI Chatbot",
   .write "Ask for fashion recommendations and let the AI stylist help you find the perfect items!"]

/-- Embedding of `main` for one click of the button with the given text
input: `if query:` (empty string is falsy), then initialization, embedding,
search with the default `top_k`, the no-results guard, and the formatting
call (whose exception, if any, escapes the handler). -/
def main (cfg : Config) (env : Env) (query : String) : MainResult :=
  if query.isEmpty then
    { ui := mainHeaderUI ++ [.error "Please enter a query to get recommendations."],
      calls := [], formatArgs := [], initCount := 0, outcome := .ok () }
  else
    let r := init_services cfg
    match r.1 with
    | none =>
      { ui := mainHeaderUI ++ r.2 ++ [.error "Failed to initialize Pinecone services."],
        calls := [], formatArgs := [], initCount := 1, outcome := .ok () }
    | some idx =>
      let e := generate_query_embedding env query
      let s := search_pinecone env (some idx) e.1
      if noMatches s.1 then
        { ui := mainHeaderUI ++ r.2 ++ [.warning "No results found for your query."],
          calls := e.2 ++ s.2, formatArgs := [], initCount := 1, outcome := .ok () }
      else
        let f := format_results_as_stylist_response env s.1 query
        match f.1 with
        | .error err =>
          { ui := mainHeaderUI ++ r.2, calls := e.2 ++ s.2 ++ f.2,
            formatArgs := [s.1], initCount := 1, outcome := .error err }
        | .ok text =>
          { ui := mainHeaderUI ++ r.2 ++
              [.subheader "Your Personal Stylist Recommends:", .markdown text true],
            calls := e.2 ++ s.2 ++ f.2, formatArgs := [s.1], initCount := 1,
            outcome := .ok () }

/-- The list of required metadata keys. -/
def requiredKeys : List String := ["name", "category", "price", "url"]

/-- The product built from a match whose required keys are all present
(`description` defaults to the empty string exactly as in the source). -/
def productOfTotal (m : Match) : Product :=
  { name := (dictGet m.metadata "name").getD "",
    category := (dictGet m.metadata "category").getD "",
    price := (dictGet m.metadata "price").getD "",
    description := (dictGet m.metadata "description").getD "",
    url := (dictGet m.metadata "url").getD "" }

/-- A stub oracle used to exercise the pipeline on concrete inputs. -/
def stubEnv : Env :=
  { embedResponse := fun _ => [],
    queryResponse := fun _ _ _ => none,
    chatResponse := fun _ => ["STUB COMPLETION"] }

/-- A complete demo match (all required keys present). -/
def demoMatch1 : Match :=
  { score := 9/10,
    metadata := [("name", "Classic Tee"), ("category", "Shirts"),
                 ("price", "25"), ("url", "http://x/1")] }

/-- A second complete demo match. -/
def demoMatch2 : Match :=
  { score := 8/10,
    metadata := [("name", "Soft Crew"), ("category", "Shirts"),
                 ("price", "30"), ("url", "http://x/2")] }

/-- A demo match whose metadata lacks the required `price` key. -/
def demoNoPrice : Match :=
  { score := 7/10,
    metadata := [("name", "Classic Tee"), ("category", "Shirts"),
                 ("url", "http://x/1")] }

/-- An oracle whose vector index returns the two demo matches. -/
def demoEnv : Env :=
  { embedResponse := fun _ => [1/10, 2/10, 3/10],
    queryResponse := fun _ _ _ => some { matchList := some [demoMatch1, demoMatch2] },
    chatResponse := fun _ => ["STUB COMPLETION"] }

theorem extractProduct_error_mem {m : Match} {e : PyError}
    (h : extractProduct m = .error e) : ∃ k ∈ requiredKeys, e = .keyError k := by
  unfold extractProduct at h
  cases h1 : dictGet m.metadata "name" <;> rw [h1] at h
  · exact ⟨"name", by simp [requiredKeys], by cases h; rfl⟩
  · cases h2 : dictGet m.metadata "category" <;> rw [h2] at h
    · exact ⟨"category", by simp [requiredKeys], by cases h; rfl⟩
    · cases h3 : dictGet m.metadata "price" <;> rw [h3] at h
      · exact ⟨"price", by simp [requiredKeys], by cases h; rfl⟩
      · cases h4 : dictGet m.metadata "url" <;> rw [h4] at h
        · exact ⟨"url", by simp [requiredKeys], by cases h; rfl⟩
        · exact absurd h (by simp)

theorem extractProduct_error_of_missing {m : Match} {k : String}
    (hk : k ∈ requiredKeys) (hmiss : dictGet m.metadata k = none) :
    ∃ kk ∈ requiredKeys, extractProduct m = .error (.keyError kk) := by
  cases h1 : dictGet m.metadata "name"
  · exact ⟨"name", by simp [requiredKeys], by unfold extractProduct; rw [h1]⟩
  · cases h2 : dictGet m.metadata "category"
    · exact ⟨"category", by simp [requiredKeys], by unfold extractProduct; rw [h1, h2]⟩
    · cases h3 : dictGet m.metadata "price"
      · exact ⟨"price", by simp [requiredKeys], by unfold extractProduct; rw [h1, h2, h3]⟩
      · cases h4 : dictGet m.metadata "url"
        · exact ⟨"url", by simp [requiredKeys], by unfold extractProduct; rw [h1, h2, h3, h4]⟩
        · exfalso
          simp [requiredKeys] at hk
          rcases hk with rfl | rfl | rfl | rfl <;> simp_all

theorem extractProduct_ok {m : Match}
    (h : ∀ k ∈ requiredKeys, dictGet m.metadata k ≠ none) :
    extractProduct m = .ok (productOfTotal m) := by
  have hn := h "name" (by simp [requiredKeys])
  have hc := h "category" (by simp [requiredKeys])
  have hp := h "price" (by simp [requiredKeys])
  have hu := h "url" (by simp [requiredKeys])
  cases h1 : dictGet m.metadata "name"
  · exact absurd h1 hn
  · cases h2 : dictGet m.metadata "category"
    · exact absurd h2 hc
    · cases h3 : dictGet m.metadata "price"
      · exact absurd h3 hp
      · cases h4 : dictGet m.metadata "url"
        · exact absurd h4 hu
        · simp [extractProduct, productOfTotal, h1, h2, h3, h4]

theorem extractProducts_ok {ms : List Match}
    (hall : ∀ m ∈ ms, ∀ k ∈ requiredKeys, dictGet m.metadata k ≠ none) :
    extractProducts ms = .ok (ms.map productOfTotal) := by
  induction ms with
  | nil => rfl
  | cons m ms ih =>
    have h1 := extractProduct_ok (hall m (by simp))
    have h2 := ih (fun m2 hm2 k hk => hall m2 (by simp [hm2]) k hk)
    simp [extractProducts, h1, h2]

theorem extractProducts_error_of_missing {ms : List Match}
    (h : ∃ m ∈ ms, ∃ k ∈ requiredKeys, dictGet m.metadata k = none) :
    ∃ kk ∈ requiredKeys, extractProducts ms = .error (.keyError kk) := by
  induction ms with
  | nil => rcases h with ⟨m, hm, _⟩; cases hm
  | cons m ms ih =>
    cases he : extractProduct m with
    | error e =>
      obtain ⟨kk, hkk, rfl⟩ := extractProduct_error_mem he
      exact ⟨kk, hkk, by simp [extractProducts, he]⟩
    | ok p =>
      rcases h with ⟨m2, hm2, k, hk, hmiss⟩
      rcases List.mem_cons.mp hm2 with rfl | hm2tail
      · obtain ⟨kk, hkk, hereq⟩ := extractProduct_error_of_missing hk hmiss
        rw [he] at hereq
        exact Except.noConfusion hereq
      · obtain ⟨kk, hkk, htail⟩ := ih ⟨m2, hm2tail, k, hk, hmiss⟩
        exact ⟨kk, hkk, by simp [extractProducts, he, htail]⟩

theorem noMatches_eq_false {o : Option SearchResults} (h : noMatches o = false) :
    ∃ r ms, o = some r ∧ r.matchList = some ms ∧ ms ≠ [] := by
  match o with
  | none => exact absurd h (by simp [noMatches])
  | some r =>
    match hr : r.matchList with
    | none => exact absurd h (by simp [noMatches, hr])
    | some ms =>
      refine ⟨r, ms, rfl, hr, ?_⟩
      have : ms.isEmpty = false := by simpa [noMatches, hr] using h
      exact List.isEmpty_eq_false.mp this

/-- Claim C1, counterexample: a search result whose `"matches"` key is
present with an empty list is truthy and passes the formatter guard, so
`format_results_as_stylist_response` does not return the apology pair
(it issues a chat-completion call on an empty table instead). -/
theorem C1_counterexample :
    format_results_as_stylist_response stubEnv
        (some { matchList := some [] }) "black shirts" ≠
      (Except.ok apology, []) := by
  intro h
  exact List.cons_ne_nil _ _ (congrArg Prod.snd h)

/-- Claim C1 as amended: `format_results_as_stylist_response` returns the
fixed apology string with no remote call exactly when the search result is
falsy (`None` or an empty dictionary) or its dictionary lacks the
`"matches"` key; a present-but-empty match list is not caught by the guard
and proceeds to the chat-completion call. -/
theorem C1_apology_iff (env : Env) (query : String) (sr : Option SearchResults) :
    format_results_as_stylist_response env sr query = (.ok apology, []) ↔
      sr = none ∨ sr = some { matchList := none } := by
  constructor
  · intro h
    rcases sr with _ | ⟨_ | ms⟩
    · exact Or.inl rfl
    · exact Or.inr rfl
    · exfalso
      simp only [format_results_as_stylist_response] at h
      split at h
      · simp at h
      · split at h <;> simp at h
  · rintro (rfl | rfl) <;> rfl

/-- Claim C2: if any match in the list lacks one of the required metadata
keys, the whole formatting call fails with a `KeyError` on a required key,
no chat-completion call is issued, and no row is silently omitted. -/
theorem C2_missing_required_key_fails (env : Env) (query : String)
    (ms : List Match) (m : Match) (hm : m ∈ ms) (k : String)
    (hk : k ∈ requiredKeys) (hmiss : dictGet m.metadata k = none) :
    ∃ kk ∈ requiredKeys,
      format_results_as_stylist_response env
          (some { matchList := some ms }) query =
        (.error (.keyError kk), []) := by
  obtain ⟨kk, hkk, he⟩ := extractProducts_error_of_missing ⟨m, hm, k, hk, hmiss⟩
  exact ⟨kk, hkk, by simp [format_results_as_stylist_response, he]⟩

/-- Witness for C2: a concrete match missing the `price` key makes the
formatter fail with a `KeyError` on a required key. -/
theorem C2_witness :
    ∃ kk ∈ requiredKeys,
      format_results_as_stylist_response stubEnv
          (some { matchList := some [demoNoPrice] }) "black shirts" =
        (.error (.keyError kk), []) :=
  C2_missing_required_key_fails stubEnv "black shirts" [demoNoPrice]
    demoNoPrice (by simp) "price" (by simp [requiredKeys]) (by decide)

/-- Claim C3: with a null index handle, `search_pinecone` returns the
no-results value `None` immediately, issuing no remote call and raising
no error. -/
theorem C3_null_handle_short_circuit (env : Env) (emb : Embedding) (k : Nat) :
    search_pinecone env none emb k = (none, []) := rfl

/-- Claim C8: with a non-null handle, `search_pinecone` issues exactly one
nearest-neighbor query carrying the given vector, the given `top_k`
(5 when the argument is omitted) and `include_metadata = true`, and
returns the provider response unchanged. -/
theorem C8_query_passthrough (env : Env) (h : Handle) (emb : Embedding) (k : Nat) :
    search_pinecone env (some h) emb k =
      (env.queryResponse emb k true, [.pineconeQuery emb k true]) ∧
    search_pinecone env (some h) emb =
      (env.queryResponse emb 5 true, [.pineconeQuery emb 5 true]) :=
  ⟨rfl, rfl⟩

/-- Claim C4: with a missing or empty Pinecone credential,
`init_services` returns `None` after emitting the missing-credential error
message, and the click handler stops after the initialization-failure
message — it issues no remote call at all (no embedding, no search, no
completion) and never reaches the formatter. -/
theorem C4_missing_credential (cfg : Config) (env : Env) (query : String)
    (hq : query.isEmpty = false)
    (hk : pyTruthyStr cfg.PINECONE_API_KEY = false) :
    init_services cfg =
      (none, [.error "Pinecone API key is missing. Check environment variables."]) ∧
    main cfg env query =
      { ui := mainHeaderUI ++
          [.error "Pinecone API key is missing. Check environment variables.",
           .error "Failed to initialize Pinecone services."],
        calls := [], formatArgs := [], initCount := 1, outcome := .ok () } := by
  have h1 : init_services cfg =
      (none, [.error "Pinecone API key is missing. Check environment variables."]) := by
    simp [init_services, hk]
  refine ⟨h1, ?_⟩
  simp [main, hq, h1, mainHeaderUI]

/-- Witness for C4: concrete configuration with the Pinecone credential
absent. -/
theorem C4_witness :
    init_services { OPENAI_API_KEY := some "sk-test", PINECONE_API_KEY := none } =
      (none, [.error "Pinecone API key is missing. Check environment variables."]) ∧
    main { OPENAI_API_KEY := some "sk-test", PINECONE_API_KEY := none } stubEnv
        "black shirts" =
      { ui := mainHeaderUI ++
          [.error "Pinecone API key is missing. Check environment variables.",
           .error "Failed to initialize Pinecone services."],
        calls := [], formatArgs := [], initCount := 1, outcome := .ok () } :=
  C4_missing_credential
    { OPENAI_API_KEY := some "sk-test", PINECONE_API_KEY := none }
    stubEnv "black shirts" (by decide) (by decide)

/-- Claim C5: with an empty query, the click handler emits only the
prompt-for-input error message: no initialization, no remote call, no
formatter invocation. -/
theorem C5_empty_query (cfg : Config) (env : Env) :
    main cfg env "" =
      { ui := mainHeaderUI ++ [.error "Please enter a query to get recommendations."],
        calls := [], formatArgs := [], initCount := 0, outcome := .ok () } := rfl

/-- Claim C6: when every match carries all required metadata keys, the
product extraction succeeds with exactly one product per match in match
order, every table row is the pipe-separated rendering of that match's
name, category, price, description (empty when absent) and a markdown
link on its URL, and the formatter issues its single chat-completion call
on the prompt embedding exactly those rows. -/
theorem C6_table_rows (env : Env) (query : String) (ms : List Match)
    (hall : ∀ m ∈ ms, ∀ k ∈ requiredKeys, dictGet m.metadata k ≠ none) :
    ∃ ps : List Product,
      extractProducts ms = .ok ps ∧
      ps.length = ms.length ∧
      (ps.map productRow).length = ms.length ∧
      (∀ i (hi : i < ms.length) (hp : i < ps.length),
        productRow ps[i] =
          "| " ++ (dictGet ms[i].metadata "name").getD "" ++ " | "
            ++ (dictGet ms[i].metadata "category").getD "" ++ " | "
            ++ (dictGet ms[i].metadata "price").getD "" ++ " | "
            ++ (dictGet ms[i].metadata "description").getD ""
            ++ " | [Link](" ++ (dictGet ms[i].metadata "url").getD "" ++ ") |") ∧
      product_rows ps = String.intercalate "\n" (ps.map productRow) ∧
      (format_results_as_stylist_response env
          (some { matchList := some ms }) query).2 =
        [.chatCompletionCreate "gpt-4"
          (stylist_messages (stylist_prompt query (product_rows ps)))] := by
  refine ⟨ms.map productOfTotal, extractProducts_ok hall, by simp, by simp, ?_, rfl, ?_⟩
  · intro i hi hp
    have : (ms.map productOfTotal)[i] = productOfTotal ms[i] := by
      simp
    rw [this]
    rfl
  · simp only [format_results_as_stylist_response, extractProducts_ok hall]
    cases env.chatResponse (stylist_messages (stylist_prompt query
        (product_rows (ms.map productOfTotal)))) <;> rfl

/-- Witness for C6 on the two-product stub of the spec scenario. -/
theorem C6_witness :
    ∃ ps : List Product,
      extractProducts [demoMatch1, demoMatch2] = .ok ps ∧
      ps.length = [demoMatch1, demoMatch2].length ∧
      (ps.map productRow).length = [demoMatch1, demoMatch2].length ∧
      (∀ i (hi : i < [demoMatch1, demoMatch2].length) (hp : i < ps.length),
        productRow ps[i] =
          "| " ++ (dictGet [demoMatch1, demoMatch2][i].metadata "name").getD "" ++ " | "
            ++ (dictGet [demoMatch1, demoMatch2][i].metadata "category").getD "" ++ " | "
            ++ (dictGet [demoMatch1, demoMatch2][i].metadata "price").getD "" ++ " | "
            ++ (dictGet [demoMatch1, demoMatch2][i].metadata "description").getD ""
            ++ " | [Link](" ++ (dictGet [demoMatch1, demoMatch2][i].metadata "url").getD "" ++ ") |") ∧
      product_rows ps = String.intercalate "\n" (ps.map productRow) ∧
      (format_results_as_stylist_response demoEnv
          (some { matchList := some [demoMatch1, demoMatch2] })
          "comfortable black shirts").2 =
        [.chatCompletionCreate "gpt-4"
          (stylist_messages (stylist_prompt "comfortable black shirts"
            (product_rows ps)))] :=
  C6_table_rows demoEnv "comfortable black shirts" [demoMatch1, demoMatch2]
    (by decide)

/-- Claim C7: when the chat-completion call succeeds (returns at least one
choice), the formatter returns exactly the first choice text, unmodified,
and that call is the only remote call it issues. -/
theorem C7_first_choice_verbatim (env : Env) (query : String)
    (ms : List Match) (ps : List Product)
    (hex : extractProducts ms = .ok ps) (c : String) (rest : List String)
    (hc : env.chatResponse
        (stylist_messages (stylist_prompt query (product_rows ps))) = c :: rest) :
    format_results_as_stylist_response env (some { matchList := some ms }) query =
      (.ok c, [.chatCompletionCreate "gpt-4"
        (stylist_messages (stylist_prompt query (product_rows ps)))]) := by
  simp [format_results_as_stylist_response, hex, hc]

/-- Witness for C7: the stub completion text is returned verbatim. -/
theorem C7_witness :
    format_results_as_stylist_response stubEnv
        (some { matchList := some [] }) "comfortable black shirts" =
      (.ok "STUB COMPLETION", [.chatCompletionCreate "gpt-4"
        (stylist_messages (stylist_prompt "comfortable black shirts"
          (product_rows [])))]) :=
  C7_first_choice_verbatim stubEnv "comfortable black shirts" [] [] rfl
    "STUB COMPLETION" [] rfl

/-- Claim C9: the OpenAI credential is never checked — `init_services`
does not depend on it at all, it succeeds with the credential absent as
long as the Pinecone credential is present, and the click handler then
still issues the embedding call. -/
theorem C9_openai_key_unchecked (cfg : Config) (env : Env) (query : String)
    (hq : query.isEmpty = false)
    (hk : pyTruthyStr cfg.PINECONE_API_KEY = true) :
    (∀ k2 : Option String,
      init_services { cfg with OPENAI_API_KEY := k2 } = init_services cfg) ∧
    (init_services
        { OPENAI_API_KEY := none, PINECONE_API_KEY := cfg.PINECONE_API_KEY }).1 =
      some { api_key := cfg.PINECONE_API_KEY.getD "", environment := PINECONE_ENV,
             index_name := PINECONE_INDEX_NAME, index_url := PINECONE_INDEX_URL } ∧
    RemoteCall.embeddingCreate query "text-embedding-ada-002" ∈
      (main { OPENAI_API_KEY := none, PINECONE_API_KEY := cfg.PINECONE_API_KEY }
        env query).calls := by
  have hinit : init_services
      { OPENAI_API_KEY := none, PINECONE_API_KEY := cfg.PINECONE_API_KEY } =
      (some { api_key := cfg.PINECONE_API_KEY.getD "", environment := PINECONE_ENV,
              index_name := PINECONE_INDEX_NAME, index_url := PINECONE_INDEX_URL },
       []) := by
    simp [init_services, hk]
  refine ⟨fun k2 => rfl, by rw [hinit], ?_⟩
  simp only [main, hq, Bool.false_eq_true, if_false, hinit,
    generate_query_embedding, search_pinecone]
  split
  · simp
  · split <;> simp

/-- Witness for C9: concrete configuration with the OpenAI credential
absent and the Pinecone credential present. -/
theorem C9_witness :
    (∀ k2 : Option String,
      init_services { OPENAI_API_KEY := k2, PINECONE_API_KEY := some "pk" } =
        init_services { OPENAI_API_KEY := none, PINECONE_API_KEY := some "pk" }) ∧
    (init_services { OPENAI_API_KEY := none, PINECONE_API_KEY := some "pk" }).1 =
      some { api_key := "pk", environment := PINECONE_ENV,
             index_name := PINECONE_INDEX_NAME, index_url := PINECONE_INDEX_URL } ∧
    RemoteCall.embeddingCreate "black shirts" "text-embedding-ada-002" ∈
      (main { OPENAI_API_KEY := none, PINECONE_API_KEY := some "pk" }
        stubEnv "black shirts").calls :=
  C9_openai_key_unchecked
    { OPENAI_API_KEY := none, PINECONE_API_KEY := some "pk" }
    stubEnv "black shirts" (by decide) (by decide)

/-- Claim C10: in the end-to-end flow, the formatter is only ever invoked
with a truthy search result whose match list is present and non-empty —
the handler returns with the no-results warning first otherwise, so the
formatter fallback branch is unreachable from the UI flow. -/
theorem C10_format_args_nonempty (cfg : Config) (env : Env) (query : String)
    (sr : Option SearchResults) (hmem : sr ∈ (main cfg env query).formatArgs) :
    ∃ r ms, sr = some r ∧ r.matchList = some ms ∧ ms ≠ [] := by
  simp only [main] at hmem
  split at hmem
  · simp at hmem
  split at hmem
  · simp at hmem
  split at hmem
  · simp at hmem
  rename_i hnm
  simp only [Bool.not_eq_true] at hnm
  split at hmem <;>
  · simp only [List.mem_singleton] at hmem
    subst hmem
    exact noMatches_eq_false hnm

/-- Witness for C10: a concrete full run whose formatter argument list is
the non-empty search result returned by the stub index. -/
theorem C10_witness :
    ∃ r ms,
      (some { matchList := some [demoMatch1, demoMatch2] } : Option SearchResults) =
        some r ∧ r.matchList = some ms ∧ ms ≠ [] :=
  C10_format_args_nonempty
    { OPENAI_API_KEY := some "sk", PINECONE_API_KEY := some "pk" }
    demoEnv "comfortable black shirts"
    (some { matchList := some [demoMatch1, demoMatch2] })
    (by
      have h : (main { OPENAI_API_KEY := some "sk", PINECONE_API_KEY := some "pk" }
            demoEnv "comfortable black shirts").formatArgs =
          [some { matchList := some [demoMatch1, demoMatch2] }] := rfl
      rw [h]
      exact List.mem_singleton.mpr rfl)

end FashionBot
